import Mathlib

/-!
Verification of the BLUESPAWN mitigation-policy core
(`src/BLUESPAWN-win-client/headers/mitigation/policy/MitigationPolicy.h`).

The header declares the `EnforcementLevel` enum and the abstract
`MitigationPolicy` class.  The enum and all method signatures (including the
`const` qualifiers on `Enforce`/`MatchesSystem`) are embedded from the header;
the method bodies live in a translation unit that is not part of the sources,
so their behaviour is modelled from the specification, as marked on each
definition below.
-/

namespace BlueSpawn

/-- The `EnforcementLevel` enum class from MitigationPolicy.h:
`None = 0, Low = 1, Moderate = 2, High = 3, All = 4`. -/
inductive EnforcementLevel : Type
  | None
  | Low
  | Moderate
  | High
  | All
deriving DecidableEq, Repr

/-- The underlying integer value of each enumerator, exactly as written in the
header (`None = 0, Low = 1, Moderate = 2, High = 3, All = 4`). -/
def EnforcementLevel.toNat : EnforcementLevel → Nat
  | .None => 0
  | .Low => 1
  | .Moderate => 2
  | .High => 3
  | .All => 4

/-- The C++ operator < on an enum class compares the underlying integer values. -/
def EnforcementLevel.lt (a b : EnforcementLevel) : Bool :=
  a.toNat < b.toNat

/-- The C++ operator >= on an enum class compares the underlying integer values. -/
def EnforcementLevel.ge (a b : EnforcementLevel) : Bool :=
  b.toNat ≤ a.toNat

/-- The fixed order `None < Low < Moderate < High < All` exactly as the spec
words it: the listed adjacent inequalities, closed under transitivity.  This
definition follows the spec text (not the code) so that the code's integer
comparison can be checked against it. -/
inductive EnforcementLevel.SpecLt : EnforcementLevel → EnforcementLevel → Prop
  | none_low : SpecLt .None .Low
  | low_moderate : SpecLt .Low .Moderate
  | moderate_high : SpecLt .Moderate .High
  | high_all : SpecLt .High .All
  | trans {a b c : EnforcementLevel} : SpecLt a b → SpecLt b c → SpecLt a c

/-- Level a is at least as high as level b in the spec's fixed order. -/
def EnforcementLevel.SpecGe (a b : EnforcementLevel) : Prop :=
  a = b ∨ EnforcementLevel.SpecLt b a

theorem EnforcementLevel.specLt_toNat {a b : EnforcementLevel}
    (h : EnforcementLevel.SpecLt a b) : a.toNat < b.toNat := by
  induction h with
  | none_low => decide
  | low_moderate => decide
  | moderate_high => decide
  | high_all => decide
  | trans _ _ ih1 ih2 => exact Nat.lt_trans ih1 ih2

theorem EnforcementLevel.toNat_specLt :
    ∀ {a b : EnforcementLevel}, a.toNat < b.toNat → EnforcementLevel.SpecLt a b := by
  intro a b
  cases a <;> cases b <;> intro h <;> first
    | exact absurd h (by decide)
    | exact .none_low
    | exact .low_moderate
    | exact .moderate_high
    | exact .high_all
    | exact .trans .none_low .low_moderate
    | exact .trans .low_moderate .moderate_high
    | exact .trans .moderate_high .high_all
    | exact .trans (.trans .none_low .low_moderate) .moderate_high
    | exact .trans (.trans .low_moderate .moderate_high) .high_all
    | exact .trans (.trans (.trans .none_low .low_moderate) .moderate_high) .high_all

theorem EnforcementLevel.specLt_iff {a b : EnforcementLevel} :
    EnforcementLevel.SpecLt a b ↔ a.toNat < b.toNat :=
  ⟨EnforcementLevel.specLt_toNat, EnforcementLevel.toNat_specLt⟩

theorem EnforcementLevel.toNat_injective {a b : EnforcementLevel}
    (h : a.toNat = b.toNat) : a = b := by
  cases a <;> cases b <;> first | rfl | exact absurd h (by decide)

/-- The `MitigationPolicy` class state, from the private fields in the header:
`bool isEnforced; std::wstring name; std::optional<std::wstring> description;
EnforcementLevel level;`. -/
structure MitigationPolicy : Type where
  isEnforced : Bool
  name : String
  description : Option String
  level : EnforcementLevel
deriving DecidableEq, Repr

/-- Modelled from the spec: the body of the `MitigationPolicy` constructor is
not among the sources (the header only declares
`MitigationPolicy(const std::wstring&, EnforcementLevel,
const std::optional<std::wstring>&)`).  Per spec §4.2, construction stores the
arguments and initialises `isEnforced` to the neutral default `false`. -/
def MitigationPolicy.construct (name : String) (level : EnforcementLevel)
    (description : Option String) : MitigationPolicy :=
  { isEnforced := false, name := name, description := description, level := level }

/-- Accessor GetPolicyName (body not among the sources; per spec §4.5 a pure
read of the `name` field). -/
def MitigationPolicy.getPolicyName (p : MitigationPolicy) : String :=
  p.name

/-- Accessor IsEnforced (body not among the sources; per spec §4.5 a pure
read of the `isEnforced` field). -/
def MitigationPolicy.getIsEnforced (p : MitigationPolicy) : Bool :=
  p.isEnforced

/-- Accessor GetEnforcementLevel (body not among the sources; per spec §4.5 a
pure read of the `level` field). -/
def MitigationPolicy.getEnforcementLevel (p : MitigationPolicy) : EnforcementLevel :=
  p.level

/-- Modelled from the spec: the body of `SetEnforced(bool enforced)` is not
among the sources.  Per spec §4.3 it sets `isEnforced` exactly to the given
value, unconditionally. -/
def MitigationPolicy.setEnforcedBool (p : MitigationPolicy) (enforced : Bool) :
    MitigationPolicy :=
  { p with isEnforced := enforced }

/-- Modelled from the spec: the body of `SetEnforced(EnforcementLevel level)`
is not among the sources.  Per spec §4.3 (and the header's doc comment: the
policy is enforced if the given level is higher than or equal to the policy's
enforcement level) it sets `isEnforced = (globalLevel >= this.level)`. -/
def MitigationPolicy.setEnforcedLevel (p : MitigationPolicy)
    (globalLevel : EnforcementLevel) : MitigationPolicy :=
  { p with isEnforced := EnforcementLevel.ge globalLevel p.level }

/-- Whether a raw underlying integer is one of the five defined enumerators. -/
def EnforcementLevel.ofNat? : Nat → Option EnforcementLevel
  | 0 => some .None
  | 1 => some .Low
  | 2 => some .Moderate
  | 3 => some .High
  | 4 => some .All
  | _ => Option.none

/-- Modelled from the spec: the constructor body is not among the sources; per
spec §7, construction-time misuse (empty name, a level outside the five
defined values) fails fast instead of producing a usable instance.  The raw
level is taken as the underlying integer so that out-of-range values are
expressible, as they are for a C++ `enum class`. -/
def MitigationPolicy.constructChecked (name : String) (rawLevel : Nat)
    (description : Option String) : Option MitigationPolicy :=
  if name = "" then Option.none
  else
    match EnforcementLevel.ofNat? rawLevel with
    | Option.none => Option.none
    | some level => some (MitigationPolicy.construct name level description)

/-- One call to either shape of `SetEnforced`. -/
inductive Mutator : Type
  | byBool (enforced : Bool)
  | byLevel (globalLevel : EnforcementLevel)
deriving DecidableEq, Repr

/-- Apply one mutator call to a policy. -/
def MitigationPolicy.applyMutator (p : MitigationPolicy) : Mutator → MitigationPolicy
  | .byBool enforced => p.setEnforcedBool enforced
  | .byLevel globalLevel => p.setEnforcedLevel globalLevel

/-- Apply a sequence of mutator calls, left to right. -/
def MitigationPolicy.applyMutators (p : MitigationPolicy) :
    List Mutator → MitigationPolicy
  | [] => p
  | m :: ms => (p.applyMutator m).applyMutators ms

/-- Modelled from the spec: `Enforce` and `MatchesSystem` are pure virtual in
the header, and no concrete subtype is among the sources.  A concrete subtype
is modelled by its action on the (modelled) system state `S` together with the
two obligations spec §4.4 imposes on every subtype: after `Enforce` the system
satisfies the rule, and `Enforce` on an already-satisfying system makes no
change (no duplicated side effects).  Both member functions are declared
`const` in the header, so neither gets to modify the policy object itself;
accordingly they act on `S` only. -/
structure ConcretePolicy (S : Type) : Type where
  base : MitigationPolicy
  enforceAct : S → S
  matchesSystem : S → Bool
  matches_after : ∀ s : S, matchesSystem (enforceAct s) = true
  noop_when_matched : ∀ s : S, matchesSystem s = true → enforceAct s = s

/-- A call to `Enforce()`: applies the change to the system, then reports
whether the system now has the policy enforced (header doc comment). -/
def ConcretePolicy.enforceCall {S : Type} (cp : ConcretePolicy S) (s : S) :
    S × Bool :=
  (cp.enforceAct s, cp.matchesSystem (cp.enforceAct s))

/-- A call to `MatchesSystem()`: a read-only inspection of the system state. -/
def ConcretePolicy.matchesCall {S : Type} (cp : ConcretePolicy S) (s : S) :
    S × Bool :=
  (s, cp.matchesSystem s)

/-- A call to `Enforce()` viewed as acting on the whole world (the policy
object together with the system state).  `Enforce` is declared `const` in the
header, so the policy component of the result is the unmodified input. -/
def ConcretePolicy.enforceMember {S : Type} (cp : ConcretePolicy S)
    (p : MitigationPolicy) (s : S) : (MitigationPolicy × S) × Bool :=
  ((p, (cp.enforceCall s).1), (cp.enforceCall s).2)

/-- A call to `MatchesSystem()` viewed as acting on the whole world.
`MatchesSystem` is declared `const` in the header, so the policy component of
the result is the unmodified input. -/
def ConcretePolicy.matchesMember {S : Type} (cp : ConcretePolicy S)
    (p : MitigationPolicy) (s : S) : (MitigationPolicy × S) × Bool :=
  ((p, (cp.matchesCall s).1), (cp.matchesCall s).2)

/-- Iterate `MatchesSystem()` calls, threading the system state. -/
def ConcretePolicy.iterMatches {S : Type} (cp : ConcretePolicy S) (s : S) :
    Nat → S
  | 0 => s
  | n + 1 => (cp.matchesCall (cp.iterMatches s n)).1

/-- A fake system state for exercising the subtype contract: one configured
flag plus a count of the writes performed so far. -/
structure FakeState : Type where
  configured : Bool
  writes : Nat
deriving DecidableEq, Repr

/-- The fake subtype's `Enforce` action: set the flag, counting a write only
when a change is actually made. -/
def fakeEnforce (s : FakeState) : FakeState :=
  if s.configured then s else { configured := true, writes := s.writes + 1 }

/-- The fake subtype's `MatchesSystem`: the flag is set. -/
def fakeMatches (s : FakeState) : Bool :=
  s.configured

/-- The fake subtype packaged as a concrete policy, discharging the two
contract obligations. -/
def fakePolicy : ConcretePolicy FakeState where
  base := MitigationPolicy.construct "Disable Anonymous Pipes"
    EnforcementLevel.Moderate Option.none
  enforceAct := fakeEnforce
  matchesSystem := fakeMatches
  matches_after := by
    intro s
    by_cases h : s.configured <;> simp [fakeEnforce, fakeMatches, h]
  noop_when_matched := by
    intro s h
    simp only [fakeMatches] at h
    simp [fakeEnforce, h]

theorem EnforcementLevel.specGe_iff {a b : EnforcementLevel} :
    EnforcementLevel.SpecGe a b ↔ b.toNat ≤ a.toNat := by
  constructor
  · rintro (rfl | h)
    · exact Nat.le_refl _
    · exact Nat.le_of_lt (EnforcementLevel.specLt_toNat h)
  · intro h
    rcases Nat.lt_or_ge b.toNat a.toNat with h2 | h2
    · exact Or.inr (EnforcementLevel.toNat_specLt h2)
    · exact Or.inl (EnforcementLevel.toNat_injective (Nat.le_antisymm h2 h))

/-- Claim C1: for every policy with intrinsic level L and every global level G,
`SetEnforced(G)` sets `isEnforced` to the comparison `G >= L`, and afterwards
`IsEnforced()` returns true exactly when G is at least as high as L in the
fixed order None < Low < Moderate < High < All. -/
theorem setEnforcedLevel_gating (p : MitigationPolicy) (G : EnforcementLevel) :
    (p.setEnforcedLevel G).isEnforced = EnforcementLevel.ge G p.level ∧
    ((p.setEnforcedLevel G).getIsEnforced = true ↔
      EnforcementLevel.SpecGe G p.level) := by
  refine ⟨rfl, ?_⟩
  simp only [MitigationPolicy.getIsEnforced, MitigationPolicy.setEnforcedLevel,
    EnforcementLevel.ge, decide_eq_true_eq]
  exact EnforcementLevel.specGe_iff.symm

/-- Claim C2: the comparison on EnforcementLevel agrees with the fixed order
None < Low < Moderate < High < All, for every pair exactly one of
A < B, A = B, B < A holds, and the order is transitive. -/
theorem enforcementLevel_total_order (A B C : EnforcementLevel) :
    (EnforcementLevel.lt A B = true ↔ EnforcementLevel.SpecLt A B) ∧
    ((EnforcementLevel.lt A B = true ∧ A ≠ B ∧ EnforcementLevel.lt B A = false) ∨
      (EnforcementLevel.lt A B = false ∧ A = B ∧ EnforcementLevel.lt B A = false) ∨
      (EnforcementLevel.lt A B = false ∧ A ≠ B ∧ EnforcementLevel.lt B A = true)) ∧
    (EnforcementLevel.lt A B = true → EnforcementLevel.lt B C = true →
      EnforcementLevel.lt A C = true) := by
  refine ⟨?_, ?_, ?_⟩
  · simp [EnforcementLevel.lt, EnforcementLevel.specLt_iff]
  · cases A <;> cases B <;> decide
  · cases A <;> cases B <;> cases C <;> decide

/-- Witness for C2 at concrete levels: transitivity applied to
None < Low and Low < Moderate. -/
theorem enforcementLevel_total_order_witness :
    EnforcementLevel.lt EnforcementLevel.None EnforcementLevel.Moderate = true :=
  (enforcementLevel_total_order EnforcementLevel.None EnforcementLevel.Low
    EnforcementLevel.Moderate).2.2 (by decide) (by decide)

/-- Claim C3: the call SetEnforced(bool) sets `isEnforced` exactly to the given value, and
after `SetEnforced(G)` followed by `SetEnforced(b)` the enforced flag is b
regardless of G (last write wins). -/
theorem setEnforcedBool_override (p : MitigationPolicy) (b : Bool)
    (G : EnforcementLevel) :
    (p.setEnforcedBool b).isEnforced = b ∧
    ((p.setEnforcedLevel G).setEnforcedBool b).getIsEnforced = b :=
  ⟨rfl, rfl⟩

/-- Claim C4 counterexample: a policy with intrinsic level None, after
`SetEnforced(Low)`, has `isEnforced` true — not false as the claim requires
for every global level other than None.  `G >= None` holds for every G, so a
None-level policy is enforced on every level-based call. -/
theorem setEnforcedLevel_none_counterexample :
    ¬ (((MitigationPolicy.construct "p" EnforcementLevel.None
          Option.none).setEnforcedLevel EnforcementLevel.Low).isEnforced = false) := by
  decide

/-- Claim C4 amended: under the level-based setter, a policy with intrinsic level
All becomes enforced exactly when the global level is All (so global High
leaves it unenforced), and a policy with intrinsic level None becomes
enforced for every global level, since every level compares at least as high
as None. -/
theorem setEnforcedLevel_extremes (p : MitigationPolicy) (G : EnforcementLevel) :
    (p.level = EnforcementLevel.All →
      ((p.setEnforcedLevel G).isEnforced = true ↔ G = EnforcementLevel.All)) ∧
    (p.level = EnforcementLevel.None →
      (p.setEnforcedLevel G).isEnforced = true) := by
  constructor
  · intro h
    have hval : (p.setEnforcedLevel G).isEnforced =
        EnforcementLevel.ge G EnforcementLevel.All := by
      simp [MitigationPolicy.setEnforcedLevel, h]
    rw [hval]
    cases G <;> decide
  · intro h
    have hval : (p.setEnforcedLevel G).isEnforced =
        EnforcementLevel.ge G EnforcementLevel.None := by
      simp [MitigationPolicy.setEnforcedLevel, h]
    rw [hval]
    cases G <;> decide

/-- Witness for C4 amended at concrete policies: an All-level policy under
global High, and a None-level policy under global Low. -/
theorem setEnforcedLevel_extremes_witness :
    (((MitigationPolicy.construct "x" EnforcementLevel.All
        Option.none).setEnforcedLevel EnforcementLevel.High).isEnforced = true ↔
      EnforcementLevel.High = EnforcementLevel.All) ∧
    ((MitigationPolicy.construct "y" EnforcementLevel.None
        Option.none).setEnforcedLevel EnforcementLevel.Low).isEnforced = true :=
  ⟨(setEnforcedLevel_extremes (MitigationPolicy.construct "x" EnforcementLevel.All
      Option.none) EnforcementLevel.High).1 rfl,
   (setEnforcedLevel_extremes (MitigationPolicy.construct "y" EnforcementLevel.None
      Option.none) EnforcementLevel.Low).2 rfl⟩

/-- Claim C5: construction yields an instance whose `IsEnforced()` is false until a
mutation is performed, and whose `GetPolicyName()`, `GetEnforcementLevel()`
and description are exactly the constructor arguments. -/
theorem construct_accessors (name : String) (level : EnforcementLevel)
    (description : Option String) :
    (MitigationPolicy.construct name level description).getIsEnforced = false ∧
    (MitigationPolicy.construct name level description).getPolicyName = name ∧
    (MitigationPolicy.construct name level description).getEnforcementLevel = level ∧
    (MitigationPolicy.construct name level description).description = description :=
  ⟨rfl, rfl, rfl, rfl⟩

/-- Claim C6: construction with an empty name or a raw level outside the five
defined enumerators is rejected eagerly (no instance is produced), and any
instance that is produced came from a non-empty name and a defined level. -/
theorem constructChecked_rejects (name : String) (rawLevel : Nat)
    (description : Option String) :
    (name = "" →
      MitigationPolicy.constructChecked name rawLevel description = Option.none) ∧
    (EnforcementLevel.ofNat? rawLevel = Option.none →
      MitigationPolicy.constructChecked name rawLevel description = Option.none) ∧
    (∀ p : MitigationPolicy,
      MitigationPolicy.constructChecked name rawLevel description = some p →
      name ≠ "" ∧ EnforcementLevel.ofNat? rawLevel = some p.level) := by
  refine ⟨?_, ?_, ?_⟩
  · intro h
    simp [MitigationPolicy.constructChecked, h]
  · intro h
    unfold MitigationPolicy.constructChecked
    rw [h]
    split <;> rfl
  · intro p h
    unfold MitigationPolicy.constructChecked at h
    by_cases hn : name = ""
    · rw [if_pos hn] at h
      exact absurd h (by simp)
    · rw [if_neg hn] at h
      refine ⟨hn, ?_⟩
      cases hl : EnforcementLevel.ofNat? rawLevel with
      | none =>
          rw [hl] at h
          exact absurd h (by simp)
      | some lvl =>
          rw [hl] at h
          injection h with h2
          rw [← h2]
          rfl

/-- Witness for C6 at concrete inputs: an empty name, an out-of-range raw
level, and a successfully constructed instance. -/
theorem constructChecked_rejects_witness :
    MitigationPolicy.constructChecked "" 2 Option.none = Option.none ∧
    MitigationPolicy.constructChecked "x" 7 Option.none = Option.none ∧
    ("x" ≠ "" ∧ EnforcementLevel.ofNat? 2 =
      some (MitigationPolicy.construct "x" EnforcementLevel.Moderate
        Option.none).level) :=
  ⟨(constructChecked_rejects "" 2 Option.none).1 rfl,
   (constructChecked_rejects "x" 7 Option.none).2.1 rfl,
   (constructChecked_rejects "x" 2 Option.none).2.2
     (MitigationPolicy.construct "x" EnforcementLevel.Moderate Option.none)
     (by decide)⟩

/-- Claim C7: for every concrete subtype obeying the contract, `Enforce()` is
idempotent: both calls return true, the second call leaves the system state
exactly where the first left it (no additional side effects), and
`MatchesSystem()` is true after each call. -/
theorem enforce_idempotent {S : Type} (cp : ConcretePolicy S) (s : S) :
    (cp.enforceCall s).2 = true ∧
    (cp.enforceCall (cp.enforceCall s).1).2 = true ∧
    (cp.enforceCall (cp.enforceCall s).1).1 = (cp.enforceCall s).1 ∧
    cp.matchesSystem (cp.enforceCall s).1 = true ∧
    cp.matchesSystem (cp.enforceCall (cp.enforceCall s).1).1 = true := by
  have h1 : cp.matchesSystem (cp.enforceAct s) = true := cp.matches_after s
  have h2 : cp.enforceAct (cp.enforceAct s) = cp.enforceAct s :=
    cp.noop_when_matched _ h1
  refine ⟨h1, ?_, ?_, h1, ?_⟩ <;>
    simp [ConcretePolicy.enforceCall, h1, h2]

/-- Claim C8: MatchesSystem() has no observable side effects: any number of calls
leaves the system state unchanged, so subsequent `MatchesSystem()` and
`Enforce()` results are unchanged; and it returns true exactly when the
system already is where `Enforce()` would leave it. -/
theorem matchesSystem_no_side_effects {S : Type} (cp : ConcretePolicy S)
    (s : S) (n : Nat) :
    cp.iterMatches s n = s ∧
    cp.matchesCall (cp.iterMatches s n) = cp.matchesCall s ∧
    cp.enforceCall (cp.iterMatches s n) = cp.enforceCall s ∧
    ((cp.matchesCall s).2 = true ↔ cp.enforceAct s = s) := by
  have key : ∀ m : Nat, cp.iterMatches s m = s := by
    intro m
    induction m with
    | zero => rfl
    | succ k ih =>
        simp [ConcretePolicy.iterMatches, ConcretePolicy.matchesCall, ih]
  refine ⟨key n, by rw [key n], by rw [key n], ?_, ?_⟩
  · intro h
    exact cp.noop_when_matched s h
  · intro h
    have h2 := cp.matches_after s
    rw [h] at h2
    exact h2

theorem MitigationPolicy.applyMutators_immutable (p : MitigationPolicy)
    (ms : List Mutator) :
    (p.applyMutators ms).name = p.name ∧
    (p.applyMutators ms).description = p.description ∧
    (p.applyMutators ms).level = p.level := by
  induction ms generalizing p with
  | nil => exact ⟨rfl, rfl, rfl⟩
  | cons m ms ih => cases m <;> exact ih _

/-- Claim C9: both shapes of `SetEnforced` modify only the `isEnforced` field: over
any sequence of mutator calls the name, description and level stay equal to
their construction-time values, and each single call preserves all three. -/
theorem setEnforced_frame (p : MitigationPolicy) (b : Bool)
    (G : EnforcementLevel) (name : String) (level : EnforcementLevel)
    (description : Option String) (ms : List Mutator) :
    ((p.setEnforcedBool b).name = p.name ∧
      (p.setEnforcedBool b).description = p.description ∧
      (p.setEnforcedBool b).level = p.level) ∧
    ((p.setEnforcedLevel G).name = p.name ∧
      (p.setEnforcedLevel G).description = p.description ∧
      (p.setEnforcedLevel G).level = p.level) ∧
    (((MitigationPolicy.construct name level description).applyMutators
        ms).getPolicyName = name ∧
      ((MitigationPolicy.construct name level description).applyMutators
        ms).description = description ∧
      ((MitigationPolicy.construct name level description).applyMutators
        ms).getEnforcementLevel = level) := by
  refine ⟨⟨rfl, rfl, rfl⟩, ⟨rfl, rfl, rfl⟩, ?_⟩
  exact MitigationPolicy.applyMutators_immutable _ ms

/-- Claim C10: Enforce and MatchesSystem are `const` member functions, so a call
to either returns the policy object unchanged: `isEnforced`, name,
description and level are all preserved even though `Enforce` may change the
system state. -/
theorem const_members_policy_frame {S : Type} (cp : ConcretePolicy S)
    (p : MitigationPolicy) (s : S) :
    (cp.enforceMember p s).1.1 = p ∧
    (cp.matchesMember p s).1.1 = p ∧
    (cp.enforceMember p s).1.1.isEnforced = p.isEnforced ∧
    (cp.enforceMember p s).1.1.name = p.name ∧
    (cp.enforceMember p s).1.1.description = p.description ∧
    (cp.enforceMember p s).1.1.level = p.level ∧
    (cp.matchesMember p s).1.1.isEnforced = p.isEnforced ∧
    (cp.matchesMember p s).1.1.name = p.name ∧
    (cp.matchesMember p s).1.1.description = p.description ∧
    (cp.matchesMember p s).1.1.level = p.level :=
  ⟨rfl, rfl, rfl, rfl, rfl, rfl, rfl, rfl, rfl, rfl⟩

/-- Sanity check of the fake subtype on concrete states: the first call to
Enforce sets the flag and performs one write, a call on an already-configured
state performs no further write. -/
theorem fakePolicy_sanity :
    fakePolicy.enforceCall ⟨false, 0⟩ = (⟨true, 1⟩, true) ∧
    fakePolicy.enforceCall ⟨true, 1⟩ = (⟨true, 1⟩, true) ∧
    fakePolicy.matchesCall ⟨false, 0⟩ = (⟨false, 0⟩, false) := by
  refine ⟨?_, ?_, ?_⟩ <;> rfl

end BlueSpawn
